import Mathlib

/-!
Verification of the aetherterm session-lifecycle and workspace-state engine.

The Python sources are embedded shallowly: dictionaries become association
lists over `String` keys, wall-clock readings become explicit `Int`
parameters, and OS syscall outcomes (ioctl, os.write) become explicit
result parameters.  Each definition mirrors one function of the sources;
points where behaviour had to be taken from the specification (because the
corresponding file is not part of the sources) are marked in doc comments.
-/

namespace AetherTerm

/-! Association lists modelling Python `dict` with string keys. -/

/-- Lookup of a key, returning the first matching value (Python `d.get(k)`). -/
def alGet {α : Type} (l : List (String × α)) (k : String) : Option α :=
  match l with
  | [] => none
  | (k1, v) :: rest => if k1 = k then some v else alGet rest k

/-- Assignment `d[k] = v`: replaces the first binding of `k`, else appends. -/
def alSet {α : Type} (l : List (String × α)) (k : String) (v : α) : List (String × α) :=
  match l with
  | [] => [(k, v)]
  | (k1, v1) :: rest => if k1 = k then (k, v) :: rest else (k1, v1) :: alSet rest k v

/-- Deletion `d.pop(k, None)`: removes the bindings of `k`. -/
def alErase {α : Type} (l : List (String × α)) (k : String) : List (String × α) :=
  match l with
  | [] => []
  | (k1, v1) :: rest => if k1 = k then alErase rest k else (k1, v1) :: alErase rest k

/-- Pointwise update of every value (a Python loop mutating each entry). -/
def alMapValues {α : Type} (f : String → α → α) (l : List (String × α)) : List (String × α) :=
  l.map fun p => (p.1, f p.1 p.2)

theorem alGet_alSet_self {α : Type} (l : List (String × α)) (k : String) (v : α) :
    alGet (alSet l k v) k = some v := by
  induction l with
  | nil => simp [alGet, alSet]
  | cons hd tl ih =>
    obtain ⟨k1, v1⟩ := hd
    by_cases h : k1 = k
    · simp [alGet, alSet, h]
    · simp [alGet, alSet, h, ih]

theorem alGet_alErase_self {α : Type} (l : List (String × α)) (k : String) :
    alGet (alErase l k) k = none := by
  induction l with
  | nil => simp [alGet, alErase]
  | cons hd tl ih =>
    obtain ⟨k1, v1⟩ := hd
    by_cases h : k1 = k
    · simp [alErase, h, ih]
    · simp [alGet, alErase, h, ih]

theorem alGet_mem {α : Type} {l : List (String × α)} {k : String} {v : α}
    (h : alGet l k = some v) : (k, v) ∈ l := by
  induction l with
  | nil => simp [alGet] at h
  | cons hd tl ih =>
    obtain ⟨k1, v1⟩ := hd
    by_cases hk : k1 = k
    · simp [alGet, hk] at h
      subst hk
      subst h
      exact List.mem_cons_self _ _
    · simp [alGet, hk] at h
      exact List.mem_cons_of_mem _ (ih h)

theorem mem_alSet {α : Type} {l : List (String × α)} {k : String} {v : α} {p : String × α}
    (h : p ∈ alSet l k v) : p = (k, v) ∨ p ∈ l := by
  induction l with
  | nil => simp [alSet] at h; left; exact h
  | cons hd tl ih =>
    obtain ⟨k1, v1⟩ := hd
    by_cases hk : k1 = k
    · simp [alSet, hk] at h
      rcases h with h | h
      · left; simp [h]
      · right; exact List.mem_cons_of_mem _ h
    · simp [alSet, hk] at h
      rcases h with h | h
      · right; simp [h]
      · rcases ih h with h2 | h2
        · left; exact h2
        · right; exact List.mem_cons_of_mem _ h2

theorem alGet_filter {α : Type} {l : List (String × α)} {k : String} {v : α}
    (q : String × α → Bool)
    (h : alGet l k = some v) (hq : q (k, v) = true) :
    alGet (l.filter q) k = some v := by
  induction l with
  | nil => simp [alGet] at h
  | cons hd tl ih =>
    obtain ⟨k1, v1⟩ := hd
    by_cases hk : k1 = k
    · simp [alGet, hk] at h
      subst hk
      subst h
      simp [List.filter, hq, alGet]
    · simp [alGet, hk] at h
      by_cases hqh : q (k1, v1) = true
      · simp [List.filter, hqh, alGet, hk]
        exact ih h
      · simp only [List.filter]
        simp only [Bool.not_eq_true] at hqh
        rw [hqh]
        exact ih h

theorem alGet_alMapValues {α : Type} (f : String → α → α) (l : List (String × α)) (k : String) :
    alGet (alMapValues f l) k = (alGet l k).map (f k) := by
  induction l with
  | nil => simp [alGet, alMapValues]
  | cons hd tl ih =>
    obtain ⟨k1, v1⟩ := hd
    by_cases hk : k1 = k
    · subst hk
      simp [alGet, alMapValues]
    · simp [alGet, alMapValues, hk]
      simpa [alMapValues] using ih

/-! Embedding of `infrastructure/terminal/buffer_manager.py` (`BufferManager`). -/

/-- Source `MAX_BUFFER_SIZE = 500 * 1024` (500KB). -/
def MAX_BUFFER_SIZE : Nat := 500 * 1024

/-- Source `BUFFER_CLEANUP_INTERVAL = 3600` seconds. -/
def BUFFER_CLEANUP_INTERVAL : Int := 3600

/-- Source `BUFFER_MAX_AGE = 86400` seconds. -/
def BUFFER_MAX_AGE : Int := 86400

/-- One entry of a session buffer: content plus its `_buffer_timestamps` value. -/
structure BufEntry where
  content : String
  timestamp : Int
deriving Repr, DecidableEq

/-- The `BufferManager` state: `_session_buffers`/`_buffer_timestamps`
(merged into one map, as they are always updated together) and `_last_cleanup`. -/
structure BufferManager where
  buffers : List (String × BufEntry)
  lastCleanup : Int
deriving Repr, DecidableEq

/-- The freshly constructed `BufferManager` (`__init__`), at a given clock reading. -/
def initBufferManager (startTime : Int) : BufferManager :=
  { buffers := [], lastCleanup := startTime }

/-- Python slice `s[-n:]` for `n > 0`: the trailing `n` characters. -/
def strTakeRight (s : String) (n : Nat) : String :=
  ⟨s.data.drop (s.data.length - n)⟩

/-- Source `BufferManager._cleanup_old_buffers`: at most once per
`BUFFER_CLEANUP_INTERVAL`, drop entries older than `BUFFER_MAX_AGE`. -/
def cleanupOldBuffers (st : BufferManager) (now : Int) : BufferManager :=
  if now - st.lastCleanup < BUFFER_CLEANUP_INTERVAL then st
  else
    { buffers := st.buffers.filter fun p => !(now - p.2.timestamp > BUFFER_MAX_AGE),
      lastCleanup := now }

/-- Source `BufferManager.append_to_buffer`: concatenate, trim to the trailing
`MAX_BUFFER_SIZE` characters when exceeding the cap, stamp the time,
then run the periodic cleanup. -/
def appendToBuffer (st : BufferManager) (sessionId : String) (data : String) (now : Int) :
    BufferManager :=
  let old := match alGet st.buffers sessionId with
    | some e => e.content
    | none => ""
  let combined := old ++ data
  let trimmed :=
    if combined.length > MAX_BUFFER_SIZE then strTakeRight combined MAX_BUFFER_SIZE
    else combined
  let st1 : BufferManager :=
    { st with buffers := alSet st.buffers sessionId { content := trimmed, timestamp := now } }
  cleanupOldBuffers st1 now

/-- Source `BufferManager.get_buffer`. -/
def getBuffer (st : BufferManager) (sessionId : String) : Option String :=
  (alGet st.buffers sessionId).map BufEntry.content

/-- Source `BufferManager.clear_buffer`. -/
def clearBuffer (st : BufferManager) (sessionId : String) : BufferManager :=
  { st with buffers := alErase st.buffers sessionId }

/-- A finite sequence of `append_to_buffer` calls, each carrying
(session id, data, clock reading). -/
def applyAppends (st : BufferManager) (ops : List (String × String × Int)) : BufferManager :=
  ops.foldl (fun acc op => appendToBuffer acc op.1 op.2.1 op.2.2) st

/-- Every stored buffer is within the size cap. -/
def bufferBoundInv (st : BufferManager) : Prop :=
  ∀ p ∈ st.buffers, (p : String × BufEntry).2.content.length ≤ MAX_BUFFER_SIZE

theorem strTakeRight_length_le (s : String) (n : Nat) : (strTakeRight s n).length ≤ n := by
  show (String.mk (s.data.drop (s.data.length - n))).length ≤ n
  show (s.data.drop (s.data.length - n)).length ≤ n
  rw [List.length_drop]
  omega

theorem appendToBuffer_bound (st : BufferManager) (sessionId data : String) (now : Int)
    (h : bufferBoundInv st) : bufferBoundInv (appendToBuffer st sessionId data now) := by
  intro p hp
  unfold appendToBuffer cleanupOldBuffers at hp
  have hmem : p ∈ alSet st.buffers sessionId
      { content :=
          if ((match alGet st.buffers sessionId with
               | some e => e.content
               | none => "") ++ data).length > MAX_BUFFER_SIZE then
            strTakeRight
              ((match alGet st.buffers sessionId with
                | some e => e.content
                | none => "") ++ data) MAX_BUFFER_SIZE
          else
            (match alGet st.buffers sessionId with
             | some e => e.content
             | none => "") ++ data,
        timestamp := now } := by
    dsimp only at hp
    split at hp
    · exact hp
    · exact List.mem_of_mem_filter hp
  rcases mem_alSet hmem with h1 | h1
  · subst h1
    dsimp only
    split
    · exact strTakeRight_length_le _ _
    · next hlen => omega
  · exact h p h1

theorem applyAppends_bound (ops : List (String × String × Int)) (st : BufferManager)
    (h : bufferBoundInv st) : bufferBoundInv (applyAppends st ops) := by
  induction ops generalizing st with
  | nil => exact h
  | cons op rest ih =>
    exact ih _ (appendToBuffer_bound st op.1 op.2.1 op.2.2 h)

theorem alGet_cleanupOldBuffers {st : BufferManager} {sessionId : String} {e : BufEntry}
    (now : Int) (h : alGet st.buffers sessionId = some e)
    (hage : ¬ now - e.timestamp > BUFFER_MAX_AGE) :
    alGet (cleanupOldBuffers st now).buffers sessionId = some e := by
  unfold cleanupOldBuffers
  split
  · exact h
  · exact alGet_filter _ h (by simp [hage])

theorem getBuffer_appendToBuffer_self (st : BufferManager) (sessionId data : String) (now : Int) :
    getBuffer (appendToBuffer st sessionId data now) sessionId =
      some
        (let old := ((alGet st.buffers sessionId).map BufEntry.content).getD ""
         let combined := old ++ data
         if combined.length > MAX_BUFFER_SIZE then strTakeRight combined MAX_BUFFER_SIZE
         else combined) := by
  unfold appendToBuffer getBuffer
  rw [alGet_cleanupOldBuffers now (alGet_alSet_self _ _ _)
    (by simp only [BUFFER_MAX_AGE]; omega)]
  cases halg : alGet st.buffers sessionId <;> simp [halg]

/-! Embedding of `domain/services/terminal_session_service.py`. -/

/-- Outcome of a Python expression that may raise: `ok` or a raised
exception carrying its message. -/
inductive PyResult where
  | ok : PyResult
  | exn : String → PyResult
deriving Repr, DecidableEq

/-- The `TerminalSession` domain entity (its constructor fields). -/
structure TerminalSession where
  sessionId : String
  userName : String
  path : String
  clientSids : List String
  closed : Bool
  masterFd : Option Nat
  slaveFd : Option Nat
  pid : Option Nat
  rows : Nat
  cols : Nat
  lastActivity : Int
deriving Repr, DecidableEq

/-- Source `TerminalSessionService` state: `_sessions`, `_read_tasks` (as the set of
session ids owning a live read task) and the injected `BufferManager`. -/
structure TerminalSessionService where
  sessions : List (String × TerminalSession)
  readTasks : List String
  bufferManager : BufferManager
deriving Repr, DecidableEq

/-- Names bound at module level in `terminal_session_service.py` (its import
statements and top-level definitions).  Notably `os` is NOT among them: the
only `import os` in the file is local to `_read_output_loop`. -/
def tssModuleGlobals : List String :=
  ["asyncio", "logging", "Dict", "Optional", "Set", "Callable", "datetime",
   "BaseTerminal", "PTYManager", "BufferManager", "log",
   "TerminalSession", "TerminalSessionService"]

/-- Source `PTYManager.set_terminal_size`: performs the `TIOCSWINSZ` ioctl inside a
`try` whose `except` merely logs, so a failing ioctl never raises to the
caller.  The ioctl outcome is passed in explicitly. -/
def setTerminalSize (ioctlResult : PyResult) : PyResult :=
  match ioctlResult with
  | PyResult.ok => PyResult.ok
  | PyResult.exn _ => PyResult.ok

/-- Source `TerminalSessionService.close_session`: cancel and drop the read task,
reclaim the PTY (an external effect), clear the buffer, delete the registry
entry.  Missing session ids are ignored. -/
def closeSession (svc : TerminalSessionService) (sessionId : String) :
    TerminalSessionService :=
  match alGet svc.sessions sessionId with
  | none => svc
  | some _ =>
    { svc with
      readTasks := svc.readTasks.erase sessionId,
      bufferManager := clearBuffer svc.bufferManager sessionId,
      sessions := alErase svc.sessions sessionId }

/-- Source `TerminalSessionService.write_to_session`.  The body resolves the global
name `os` before calling `os.write`; the outcome of the underlying
`os.write` syscall itself is passed in as `osWriteResult`.  Any exception in
the `try` block (including a `NameError` from the name resolution) is caught
and turned into a `False` return. -/
def writeToSession (svc : TerminalSessionService) (sessionId data : String)
    (osWriteResult : PyResult) (now : Int) : TerminalSessionService × Bool :=
  match alGet svc.sessions sessionId with
  | none => (svc, false)
  | some s =>
    if s.closed || s.masterFd.isNone then (svc, false)
    else
      let callResult : PyResult :=
        if "os" ∈ tssModuleGlobals then osWriteResult
        else PyResult.exn "NameError: name os is not defined"
      match callResult with
      | PyResult.exn _ => (svc, false)
      | PyResult.ok =>
        let s2 := { s with lastActivity := now }
        ({ svc with sessions := alSet svc.sessions sessionId s2 }, true)

/-- Source `TerminalSessionService.resize_session`: reject when the session is
missing, closed or has no master fd; otherwise call
`PTYManager.set_terminal_size` and then store the new dimensions. -/
def resizeSession (svc : TerminalSessionService) (sessionId : String)
    (rows cols : Nat) (ioctlResult : PyResult) (now : Int) :
    TerminalSessionService × Bool :=
  match alGet svc.sessions sessionId with
  | none => (svc, false)
  | some s =>
    if s.closed || s.masterFd.isNone then (svc, false)
    else
      match setTerminalSize ioctlResult with
      | PyResult.exn _ => (svc, false)
      | PyResult.ok =>
        let s2 := { s with rows := rows, cols := cols, lastActivity := now }
        ({ svc with sessions := alSet svc.sessions sessionId s2 }, true)

/-- Source `TerminalSessionService.get_buffer_content`. -/
def getBufferContent (svc : TerminalSessionService) (sessionId : String) :
    Option String :=
  getBuffer svc.bufferManager sessionId

/-- A concrete open session used to evaluate the service operations. -/
def sampleSession : TerminalSession :=
  { sessionId := "s1", userName := "alice", path := "/home/alice",
    clientSids := ["c1"], closed := false, masterFd := some 3,
    slaveFd := some 4, pid := some 100, rows := 24, cols := 80,
    lastActivity := 0 }

/-- A concrete service state holding `sampleSession` with buffered output. -/
def sampleService : TerminalSessionService :=
  { sessions := [("s1", sampleSession)],
    readTasks := ["s1"],
    bufferManager := { buffers := [("s1", { content := "hello", timestamp := 0 })],
                       lastCleanup := 0 } }

/-! Embedding of session ownership checking
(`presentation/websocket/socket_handlers.py`, `check_session_ownership`). -/

/-- The identity attached to a connection: the `X-REMOTE-USER` header value
and the remote network address, either of which may be absent. -/
structure UserInfo where
  remoteUser : Option String
  remoteAddr : Option String
deriving Repr, DecidableEq

/-- Python truthiness of an optional header string: `None` and the empty
string are falsy. -/
def truthy : Option String → Bool
  | none => false
  | some s => s != ""

/-- Source `check_session_ownership(session_id, current_user_info)`: unknown session
ids are not owned; otherwise compare `remote_user` values when both are
truthy, then fall back to comparing `remote_addr` values when both are
truthy. -/
def checkSessionOwnership (sessionOwners : List (String × UserInfo))
    (sessionId : String) (currentUserInfo : UserInfo) : Bool :=
  match alGet sessionOwners sessionId with
  | none => false
  | some ownerInfo =>
    if truthy currentUserInfo.remoteUser && truthy ownerInfo.remoteUser
        && (currentUserInfo.remoteUser == ownerInfo.remoteUser) then true
    else if truthy currentUserInfo.remoteAddr && truthy ownerInfo.remoteAddr
        && (currentUserInfo.remoteAddr == ownerInfo.remoteAddr) then true
    else false

/-- Both identities carry a truthy authenticated principal and the
principals agree. -/
def principalMatch (cur owner : UserInfo) : Bool :=
  truthy cur.remoteUser && truthy owner.remoteUser && (cur.remoteUser == owner.remoteUser)

/-- Both identities carry a truthy network address and the addresses agree. -/
def addrMatch (cur owner : UserInfo) : Bool :=
  truthy cur.remoteAddr && truthy owner.remoteAddr && (cur.remoteAddr == owner.remoteAddr)

/-! Embedding of `domain/services/global_workspace_service.py`. -/

/-- A pane dictionary as built by `GlobalWorkspaceService.create_tab`. -/
structure Pane where
  id : String
  paneType : String
  title : String
  isActive : Bool
  sessionId : Option String
deriving Repr, DecidableEq

/-- A tab dictionary of the global workspace. -/
structure Tab where
  id : String
  title : String
  tabType : String
  subType : Option String
  isActive : Bool
  panes : List Pane
  layout : String
  lastActivity : Int
deriving Repr, DecidableEq

/-- Source `GlobalWorkspaceService` state: the single `_workspace` dictionary
(`tabs`, `activeTabId`, `lastAccessed`) plus `_active_users` and
`_user_roles`. -/
structure GlobalWorkspace where
  tabs : List Tab
  activeTabId : Option String
  lastAccessed : Int
  activeUsers : List String
  userRoles : List (String × String)
deriving Repr, DecidableEq

/-- Source `MAX_TABS = 20`. -/
def MAX_TABS : Nat := 20

/-- Source `MAX_PANES_PER_TAB = 4`. -/
def MAX_PANES_PER_TAB : Nat := 4

/-- Source `GlobalWorkspaceService.add_user`. -/
def addUser (ws : GlobalWorkspace) (socketId role : String) : GlobalWorkspace :=
  { ws with
    activeUsers := if socketId ∈ ws.activeUsers then ws.activeUsers
                   else ws.activeUsers ++ [socketId],
    userRoles := alSet ws.userRoles socketId role }

/-- Source `GlobalWorkspaceService.remove_user`. -/
def removeUser (ws : GlobalWorkspace) (socketId : String) : GlobalWorkspace :=
  { ws with
    activeUsers := ws.activeUsers.erase socketId,
    userRoles := alErase ws.userRoles socketId }

/-- Source `GlobalWorkspaceService.get_user_role`. -/
def getUserRole (ws : GlobalWorkspace) (socketId : String) : Option String :=
  alGet ws.userRoles socketId

/-- Source `GlobalWorkspaceService.can_user_modify`: role defaults to `"User"` when
the socket id is not in `_user_roles`; only `"Viewer"` is denied. -/
def canUserModify (ws : GlobalWorkspace) (socketId : String) : Bool :=
  ((alGet ws.userRoles socketId).getD "User") != "Viewer"

/-- Source `GlobalWorkspaceService.create_tab`: reject at the `MAX_TABS` cap;
otherwise build the tab (with one default unbound pane when the type is
`"terminal"`), deactivate every other tab, append it and activate it.  The
`uuid4`-derived fresh identifiers are passed in explicitly. -/
def createTab (ws : GlobalWorkspace) (title tabType : String)
    (subType : Option String) (freshTabId freshPaneId : String) (now : Int) :
    GlobalWorkspace × Option Tab :=
  if ws.tabs.length ≥ MAX_TABS then (ws, none)
  else
    let baseTab : Tab :=
      { id := freshTabId, title := title, tabType := tabType, subType := subType,
        isActive := true, panes := [], layout := "single", lastActivity := now }
    let newTab :=
      if tabType = "terminal" then
        { baseTab with panes :=
            [{ id := freshPaneId, paneType := "terminal", title := "Terminal",
               isActive := true, sessionId := none }] }
      else baseTab
    let deactivated := ws.tabs.map fun t => { t with isActive := false }
    ({ ws with tabs := deactivated ++ [newTab], activeTabId := some freshTabId,
               lastAccessed := now },
     some newTab)

/-- Source `GlobalWorkspaceService.close_tab`: find the tab index, pop it, and if it
was the active tab activate the first remaining tab (or clear
`activeTabId` when none remain). -/
def closeTab (ws : GlobalWorkspace) (tabId : String) (now : Int) :
    GlobalWorkspace × Bool :=
  match ws.tabs.findIdx? (fun t => t.id == tabId) with
  | none => (ws, false)
  | some i =>
    let remaining := ws.tabs.eraseIdx i
    let newActive : Option String :=
      if ws.activeTabId = some tabId then
        match remaining with
        | [] => none
        | t :: _ => some t.id
      else ws.activeTabId
    ({ ws with tabs := remaining, activeTabId := newActive, lastAccessed := now },
     true)

/-! Embedding of the reconnection protocol of
`presentation/websocket/socket_handlers.py` (`disconnect`,
`_schedule_terminal_closure`, `_delayed_terminal_closure` and the
session-reuse branch of `create_terminal`).  The handlers operate on the
class-level registries of `AsyncioTerminal`; that entity class itself is not
part of the sources, so the state it carries and its `close()` method are
modelled from the specification where noted. -/

/-- A pending `_closure_task`: when it was scheduled and its grace period. -/
structure ClosureTimer where
  scheduledAt : Int
  gracePeriod : Int
deriving Repr, DecidableEq

/-- Modelled from the spec: the per-session state of an `AsyncioTerminal`
used by the handlers — `client_sids`, `closed`, `_closure_task`, and the
identity of its spawned PTY process (`asyncio_terminal.py` is not among the
sources; fields are those the handlers read and write). -/
structure ATerm where
  clientSids : List String
  closed : Bool
  closureTask : Option ClosureTimer
  ptyId : Nat
deriving Repr, DecidableEq

/-- The class-level registries `AsyncioTerminal.sessions`,
`AsyncioTerminal.closed_sessions` and `AsyncioTerminal.session_buffers`,
plus the current clock reading. -/
structure AServer where
  sessions : List (String × ATerm)
  closedSessions : List String
  sessionBuffers : List (String × String)
  now : Int
deriving Repr, DecidableEq

/-- Source `_schedule_terminal_closure`: cancel any existing closure task and
install a fresh one with the given grace period. -/
def scheduleTerminalClosure (t : ATerm) (now gracePeriod : Int) : ATerm :=
  { t with closureTask := some { scheduledAt := now, gracePeriod := gracePeriod } }

/-- The terminal-session part of the `disconnect` handler: remove the client
from every session holding it and, when the client set of a session becomes
empty, schedule its delayed closure with a 30 second grace period. -/
def disconnectClient (st : AServer) (sid : String) : AServer :=
  { st with sessions := alMapValues (fun _ t =>
      if sid ∈ t.clientSids then
        let t1 := { t with clientSids := t.clientSids.erase sid }
        if t1.clientSids.isEmpty then scheduleTerminalClosure t1 st.now 30
        else t1
      else t) st.sessions }

/-- Set the `_closure_task` reference of the terminal to `None` (the `finally`
clause of `_delayed_terminal_closure`, and the explicit cancellation in
`create_terminal`). -/
def clearClosureTask (st : AServer) (sessionId : String) : AServer :=
  { st with sessions := alMapValues (fun k t =>
      if k = sessionId then { t with closureTask := none } else t) st.sessions }

/-- Modelled from the spec: `AsyncioTerminal.close()` — the session
transitions to Closed, its registry entry is removed and its id is recorded
in `closed_sessions` (asyncio_terminal.py is not among the sources; spec
sections 4.3 and 4.4). -/
def terminalClose (st : AServer) (sessionId : String) : AServer :=
  { st with
    sessions := alErase st.sessions sessionId,
    closedSessions := sessionId :: st.closedSessions }

/-- The body of `_delayed_terminal_closure` after its `await asyncio.sleep`
returns: if clients have reconnected, do nothing; otherwise, if the session
is still registered and not closed, close it; the `finally` clause clears
the `_closure_task` reference. -/
def fireClosure (st : AServer) (sessionId : String) : AServer :=
  match alGet st.sessions sessionId with
  | none => st
  | some t =>
    if !t.clientSids.isEmpty then clearClosureTask st sessionId
    else if !t.closed then clearClosureTask (terminalClose st sessionId) sessionId
    else clearClosureTask st sessionId

/-- The closure coroutine may only run once its grace period has elapsed and
while its task has not been cancelled. -/
def closureFireEnabled (st : AServer) (sessionId : String) : Prop :=
  ∃ t tm, alGet st.sessions sessionId = some t ∧ t.closureTask = some tm ∧
    st.now ≥ tm.scheduledAt + tm.gracePeriod

/-- Passage of time between handler invocations. -/
def advanceTime (st : AServer) (d : Int) : AServer :=
  { st with now := st.now + d }

/-- Python `set.add`. -/
def addClientSid (sids : List String) (sid : String) : List String :=
  if sid ∈ sids then sids else sids ++ [sid]

/-- The session-reuse branch of `create_terminal`: when the requested
session id is registered and not closed, cancel any pending closure task
and add the client to the client set of the terminal.  No new PTY is spawned and
the session buffers are untouched.  (The branches creating a fresh
terminal, or reporting a closed session, leave this state unchanged here.) -/
def createTerminalReuse (st : AServer) (sid sessionId : String) : AServer :=
  match alGet st.sessions sessionId with
  | none => st
  | some t =>
    if !t.closed then
      let t1 := { t with closureTask := none,
                         clientSids := addClientSid t.clientSids sid }
      { st with sessions := alSet st.sessions sessionId t1 }
    else st

/-! Embedding of the permission gates of the socket handlers
(`terminal_input`, `create_terminal`, `tab_create`, `on_workspace_update`). -/

/-- A message emitted to a client over the socket. -/
inductive Emit where
  | terminalOutput (sessionId data : String)
  | terminalError (msg : String)
  | workspaceError (msg : String)
  | ptyWrite (sessionId data : String)
deriving Repr, DecidableEq

/-- Combined state touched by the socket handlers. -/
structure SocketState where
  workspace : GlobalWorkspace
  server : AServer
deriving Repr, DecidableEq

/-- The `terminal_input` handler: Viewers get an explicit read-only notice
and nothing is written; otherwise the input is forwarded to the
PTY (`AsyncioTerminal.write`, an effect on the external shell process). -/
def terminalInputHandler (st : SocketState) (sid sessionId inputData : String) :
    SocketState × List Emit :=
  if !canUserModify st.workspace sid then
    (st, [Emit.terminalOutput sessionId
      "\r\n\x1b[33m[Input blocked: Read-only access for Viewer role]\x1b[0m\r\n"])
  else
    match alGet st.server.sessions sessionId with
    | some _ => (st, [Emit.ptyWrite sessionId inputData])
    | none => (st, [])

/-- The permission gate opening `create_terminal`; the remainder of the
handler (PTY creation and attachment) is abstracted as `rest`. -/
def createTerminalHandler (rest : SocketState → SocketState × List Emit)
    (st : SocketState) (sid : String) : SocketState × List Emit :=
  if !canUserModify st.workspace sid then
    (st, [Emit.terminalError "Viewers cannot create terminals"])
  else rest st

/-- The permission gate opening `tab_create`; the remainder of the handler
(`create_tab` plus terminal creation) is abstracted as `rest`. -/
def tabCreateHandler (rest : SocketState → SocketState × List Emit)
    (st : SocketState) (sid : String) : SocketState × List Emit :=
  if !canUserModify st.workspace sid then
    (st, [Emit.workspaceError "Viewers cannot create tabs"])
  else rest st

/-- The permission gate opening `on_workspace_update`; the remainder
(`update_workspace` and the broadcast) is abstracted as `rest`. -/
def workspaceUpdateHandler (rest : SocketState → SocketState × List Emit)
    (st : SocketState) (sid : String) : SocketState × List Emit :=
  if !canUserModify st.workspace sid then
    (st, [Emit.workspaceError "Viewers cannot modify the workspace"])
  else rest st

/-! Claim theorems. -/

/-- C2: for every session and every finite sequence of appends starting from
a fresh Buffer Store, after each append every stored buffer length is at
most `MAX_BUFFER_SIZE`; and a single append stores exactly the concatenation
of the old content with the chunk, trimmed to its trailing
`MAX_BUFFER_SIZE` characters when the concatenation exceeds the cap. -/
theorem C2_buffer_bound_and_trailing_retention :
    (∀ (startTime : Int) (ops : List (String × String × Int)) (sid : String) (e : BufEntry),
        alGet (applyAppends (initBufferManager startTime) ops).buffers sid = some e →
        e.content.length ≤ MAX_BUFFER_SIZE) ∧
    (∀ (st : BufferManager) (sid data : String) (now : Int),
        getBuffer (appendToBuffer st sid data now) sid =
          some
            (let old := ((alGet st.buffers sid).map BufEntry.content).getD ""
             let combined := old ++ data
             if combined.length > MAX_BUFFER_SIZE then strTakeRight combined MAX_BUFFER_SIZE
             else combined)) := by
  constructor
  · intro startTime ops sid e h
    have hinv : bufferBoundInv (applyAppends (initBufferManager startTime) ops) :=
      applyAppends_bound ops _ (by intro p hp; simp [initBufferManager] at hp)
    exact hinv (sid, e) (alGet_mem h)
  · intro st sid data now
    exact getBuffer_appendToBuffer_self st sid data now

/-- Witness for C2 at a concrete single append. -/
theorem C2_witness : ("hi" : String).length ≤ MAX_BUFFER_SIZE :=
  C2_buffer_bound_and_trailing_retention.1 0 [("s", "hi", 0)] "s"
    { content := "hi", timestamp := 0 } (by decide)

/-- C4 counterexample: the session of `sampleService` has buffered content
`"hello"`, yet after `close_session` the Buffer Store read for its id
returns nothing — on this code path the buffer does not survive closure. -/
theorem C4_counterexample :
    getBufferContent sampleService "s1" = some "hello" ∧
    getBufferContent (closeSession sampleService "s1") "s1" = none := by
  decide

/-- C4 (amended): `close_session` on an existing session clears its buffer
entry, so a Buffer Store read for that session id afterwards returns
nothing rather than the last scrollback. -/
theorem C4_close_session_clears_buffer (svc : TerminalSessionService)
    (sessionId : String) (h : (alGet svc.sessions sessionId).isSome) :
    getBufferContent (closeSession svc sessionId) sessionId = none := by
  unfold closeSession
  cases halg : alGet svc.sessions sessionId with
  | none => rw [halg] at h; simp at h
  | some s =>
    show ((alGet (alErase svc.bufferManager.buffers sessionId) sessionId).map
      BufEntry.content) = none
    rw [alGet_alErase_self]
    rfl

/-- Witness for the amended C4 at the concrete `sampleService`. -/
theorem C4_witness : getBufferContent (closeSession sampleService "s1") "s1" = none :=
  C4_close_session_clears_buffer sampleService "s1" (by decide)

/-- C3 counterexample: resizing the open session of `sampleService` while
the window-size ioctl fails still reports success and overwrites the stored
rows (24 becomes 50) — the update is not all-or-nothing with the syscall. -/
theorem C3_counterexample :
    sampleSession.rows = 24 ∧
    (resizeSession sampleService "s1" 50 120 (PyResult.exn "ioctl EINVAL") 1).2 = true ∧
    (alGet (resizeSession sampleService "s1" 50 120
        (PyResult.exn "ioctl EINVAL") 1).1.sessions "s1").map TerminalSession.rows =
      some 50 := by
  decide

/-- C3 (amended): a window-size ioctl failure is caught and logged inside
`set_terminal_size` and never reaches `resize_session`, so for every
present, open session with a PTY handle the stored dimensions are updated
to the requested values and success is reported regardless of the ioctl
outcome. -/
theorem C3_resize_updates_regardless_of_ioctl (svc : TerminalSessionService)
    (sessionId : String) (rows cols : Nat) (ioctlResult : PyResult) (now : Int)
    (s : TerminalSession) (hs : alGet svc.sessions sessionId = some s)
    (hopen : s.closed = false) (hfd : s.masterFd.isSome) :
    (resizeSession svc sessionId rows cols ioctlResult now).2 = true ∧
    ∃ s2, alGet (resizeSession svc sessionId rows cols ioctlResult now).1.sessions
        sessionId = some s2 ∧ s2.rows = rows ∧ s2.cols = cols := by
  have hfdn : s.masterFd.isNone = false := by
    cases hm : s.masterFd with
    | none => rw [hm] at hfd; simp at hfd
    | some v => rfl
  unfold resizeSession
  simp only [hs, hopen, hfdn, Bool.or_self, Bool.false_eq_true, if_false]
  cases ioctlResult with
  | ok =>
    exact ⟨rfl, _, alGet_alSet_self _ _ _, rfl, rfl⟩
  | exn msg =>
    exact ⟨rfl, _, alGet_alSet_self _ _ _, rfl, rfl⟩

/-- Witness for the amended C3 at the concrete `sampleService`. -/
theorem C3_witness :
    (resizeSession sampleService "s1" 50 120 PyResult.ok 1).2 = true ∧
    ∃ s2, alGet (resizeSession sampleService "s1" 50 120 PyResult.ok 1).1.sessions
        "s1" = some s2 ∧ s2.rows = 50 ∧ s2.cols = 120 :=
  C3_resize_updates_regardless_of_ioctl sampleService "s1" 50 120 PyResult.ok 1
    sampleSession (by decide) (by decide) (by decide)

/-- C6 (code bug): `write_to_session` does reject a missing, closed or
handle-less session, but its success path is unreachable — `os` is not a
module-level name in `terminal_session_service.py` (the only `import os` is
local to `_read_output_loop`), so `os.write` raises `NameError`, the
`except` clause returns `False`, and neither the PTY nor `last_activity`
is touched.  In particular the write against the open session of
`sampleService` is rejected too. -/
theorem C6_write_to_session_never_succeeds :
    (∀ (svc : TerminalSessionService) (sessionId data : String)
        (osWriteResult : PyResult) (now : Int),
        writeToSession svc sessionId data osWriteResult now = (svc, false)) ∧
    writeToSession sampleService "s1" "echo hi\n" PyResult.ok 1 =
      (sampleService, false) := by
  constructor
  · intro svc sessionId data osWriteResult now
    unfold writeToSession
    have hos : ("os" ∈ tssModuleGlobals) = False := by
      simp [tssModuleGlobals]
    cases halg : alGet svc.sessions sessionId with
    | none => rfl
    | some s =>
      cases hc : (s.closed || s.masterFd.isNone) with
      | true => simp [hc]
      | false => simp [hc, hos]
  · decide

/-- C5 counterexample: the requester (`alice`) and the recorded owner
(`bob`) both carry authenticated principals and they differ, yet
`check_session_ownership` still grants ownership through the network
address fallback. -/
theorem C5_counterexample :
    checkSessionOwnership
      [("s1", { remoteUser := some "bob", remoteAddr := some "10.0.0.7" })] "s1"
      { remoteUser := some "alice", remoteAddr := some "10.0.0.7" } = true := by
  decide

/-- C5 (amended): the ownership check tries the authenticated principal
comparison first, but falls back to the network-address comparison whenever
the principal comparison does not succeed — including when both principals
are present and differ.  It returns true exactly when the session has a
recorded owner and either comparison matches. -/
theorem C5_ownership_principal_then_address (sessionOwners : List (String × UserInfo))
    (sessionId : String) (cur : UserInfo) :
    checkSessionOwnership sessionOwners sessionId cur =
      ((alGet sessionOwners sessionId).elim false fun owner =>
        principalMatch cur owner || addrMatch cur owner) := by
  unfold checkSessionOwnership principalMatch addrMatch
  cases alGet sessionOwners sessionId with
  | none => rfl
  | some owner =>
    simp only [Option.elim]
    cases hpm : (truthy cur.remoteUser && truthy owner.remoteUser
        && (cur.remoteUser == owner.remoteUser)) with
    | true => simp [hpm]
    | false =>
      cases ham : (truthy cur.remoteAddr && truthy owner.remoteAddr
          && (cur.remoteAddr == owner.remoteAddr)) with
      | true => simp [hpm, ham]
      | false => simp [hpm, ham]

/-- C7: every gated mutation operation — terminal input, terminal creation,
tab creation and workspace update — invoked by a client whose stored role is
Viewer leaves the state unchanged and emits an explicit rejection message
to that client, never a silent drop. -/
theorem C7_viewer_gate_rejects_and_preserves_state (st : SocketState) (sid : String)
    (hrole : getUserRole st.workspace sid = some "Viewer")
    (sessionId inputData : String)
    (rest1 rest2 rest3 : SocketState → SocketState × List Emit) :
    terminalInputHandler st sid sessionId inputData =
      (st, [Emit.terminalOutput sessionId
        "\r\n\x1b[33m[Input blocked: Read-only access for Viewer role]\x1b[0m\r\n"]) ∧
    createTerminalHandler rest1 st sid =
      (st, [Emit.terminalError "Viewers cannot create terminals"]) ∧
    tabCreateHandler rest2 st sid =
      (st, [Emit.workspaceError "Viewers cannot create tabs"]) ∧
    workspaceUpdateHandler rest3 st sid =
      (st, [Emit.workspaceError "Viewers cannot modify the workspace"]) := by
  have hcm : canUserModify st.workspace sid = false := by
    unfold canUserModify
    unfold getUserRole at hrole
    rw [hrole]
    decide
  refine ⟨?_, ?_, ?_, ?_⟩ <;>
    simp [terminalInputHandler, createTerminalHandler, tabCreateHandler,
      workspaceUpdateHandler, hcm]

/-- A concrete workspace with no tabs and no registered users. -/
def emptyWorkspace : GlobalWorkspace :=
  { tabs := [], activeTabId := none, lastAccessed := 0,
    activeUsers := [], userRoles := [] }

/-- A concrete workspace in which client `v1` is registered as a Viewer. -/
def viewerWorkspace : GlobalWorkspace :=
  { emptyWorkspace with activeUsers := ["v1"], userRoles := [("v1", "Viewer")] }

/-- A concrete socket state in which client `v1` is a stored Viewer. -/
def viewerSocketState : SocketState :=
  { workspace := viewerWorkspace,
    server := { sessions := [], closedSessions := [], sessionBuffers := [],
                now := 0 } }

/-- Witness for C7: the Viewer `v1` is blocked from terminal input at a
concrete state. -/
theorem C7_witness :
    terminalInputHandler viewerSocketState "v1" "s1" "ls\n" =
      (viewerSocketState, [Emit.terminalOutput "s1"
        "\r\n\x1b[33m[Input blocked: Read-only access for Viewer role]\x1b[0m\r\n"]) :=
  (C7_viewer_gate_rejects_and_preserves_state viewerSocketState "v1" (by decide)
    "s1" "ls\n" (fun s => (s, [])) (fun s => (s, [])) (fun s => (s, []))).1

/-- C10: a client id never present in the role map is treated as role
`"User"` by the mutation gate, so it passes every Viewer-gate check. -/
theorem C10_unregistered_client_passes_gate (ws : GlobalWorkspace)
    (socketId : String) (h : alGet ws.userRoles socketId = none) :
    getUserRole ws socketId = none ∧ canUserModify ws socketId = true := by
  refine ⟨h, ?_⟩
  unfold canUserModify
  rw [h]
  decide

/-- Witness for C10 at a concrete never-registered client id. -/
theorem C10_witness :
    getUserRole emptyWorkspace "ghost" = none ∧
    canUserModify emptyWorkspace "ghost" = true :=
  C10_unregistered_client_passes_gate emptyWorkspace "ghost" (by decide)

/-- C8: creating a tab at the `MAX_TABS` cap returns a capacity rejection
with the workspace unchanged; below the cap the new tab is appended with
every other tab deactivated, the new tab active, and — for terminal tabs —
exactly one default pane with no bound session. -/
theorem C8_create_tab_capacity_and_shape (ws : GlobalWorkspace)
    (title tabType : String) (subType : Option String)
    (freshTabId freshPaneId : String) (now : Int) :
    (ws.tabs.length = MAX_TABS →
      createTab ws title tabType subType freshTabId freshPaneId now = (ws, none)) ∧
    (ws.tabs.length < MAX_TABS →
      ∃ newTab,
        createTab ws title tabType subType freshTabId freshPaneId now =
          ({ ws with tabs := (ws.tabs.map fun t => { t with isActive := false })
                              ++ [newTab],
                     activeTabId := some freshTabId, lastAccessed := now },
           some newTab) ∧
        newTab.isActive = true ∧
        (tabType = "terminal" → ∃ p, newTab.panes = [p] ∧ p.sessionId = none)) := by
  constructor
  · intro h
    unfold createTab
    rw [if_pos (by omega)]
  · intro h
    unfold createTab
    rw [if_neg (by omega)]
    by_cases ht : tabType = "terminal"
    · refine ⟨_, rfl, ?_, ?_⟩
      · simp [ht]
      · intro _
        refine ⟨{ id := freshPaneId, paneType := "terminal", title := "Terminal",
                  isActive := true, sessionId := none }, ?_, rfl⟩
        simp [ht]
    · refine ⟨_, rfl, ?_, ?_⟩
      · simp [ht]
      · intro hcontra
        exact absurd hcontra ht

/-- A tab used to populate concrete workspaces. -/
def plainTab : Tab :=
  { id := "t0", title := "T", tabType := "terminal", subType := none,
    isActive := false, panes := [], layout := "single", lastActivity := 0 }

/-- A concrete workspace already holding `MAX_TABS` tabs. -/
def fullWorkspace : GlobalWorkspace :=
  { emptyWorkspace with tabs := List.replicate 20 plainTab }

/-- Witness for C8: rejection at the cap, and the appended active tab with
one unbound pane below the cap. -/
theorem C8_witness :
    createTab fullWorkspace "New" "terminal" none "tab_x" "pane_x" 5 =
      (fullWorkspace, none) ∧
    ∃ newTab,
      createTab emptyWorkspace "New" "terminal" none "tab_x" "pane_x" 5 =
        ({ emptyWorkspace with
             tabs := (emptyWorkspace.tabs.map fun t => { t with isActive := false })
                      ++ [newTab],
             activeTabId := some "tab_x", lastAccessed := 5 },
         some newTab) ∧
      newTab.isActive = true ∧
      ("terminal" = "terminal" → ∃ p, newTab.panes = [p] ∧ p.sessionId = none) :=
  ⟨(C8_create_tab_capacity_and_shape fullWorkspace "New" "terminal" none
      "tab_x" "pane_x" 5).1 (by decide),
   (C8_create_tab_capacity_and_shape emptyWorkspace "New" "terminal" none
      "tab_x" "pane_x" 5).2 (by decide)⟩

theorem eraseIdx_findIdx_eq_eraseP {α : Type} (p : α → Bool) (l : List α) :
    (match l.findIdx? p with
     | none => l
     | some i => l.eraseIdx i) = l.eraseP p := by
  induction l with
  | nil => rfl
  | cons x xs ih =>
    by_cases hx : p x = true
    · simp [List.findIdx?_cons, hx, List.eraseP_cons]
    · simp only [List.findIdx?_cons, hx, if_false, Bool.false_eq_true,
        List.eraseP_cons, cond_eq_if]
      cases hfi : xs.findIdx? p with
      | none =>
        rw [hfi] at ih
        simp [hfi]
        exact ih
      | some i =>
        rw [hfi] at ih
        simp [hfi, List.eraseIdx]
        exact ih

theorem findIdx?_isSome_of_mem {α : Type} {p : α → Bool} {l : List α} {x : α}
    (hm : x ∈ l) (hp : p x = true) : (l.findIdx? p).isSome = true := by
  induction l with
  | nil => cases hm
  | cons y ys ih =>
    by_cases hy : p y = true
    · simp [List.findIdx?_cons, hy]
    · rcases List.mem_cons.mp hm with h | h
      · subst h; exact absurd hp hy
      · simp only [List.findIdx?_cons, hy, if_false, Bool.false_eq_true]
        cases hfi : ys.findIdx? p with
        | none => rw [hfi] at ih; simp at ih; exact absurd (ih h) (by simp)
        | some i => simp [hfi]

/-- C9: closing an existing tab removes it (the first tab bearing the id)
and reports success; when the closed tab was the active one the first
remaining tab becomes active, and when no tab remains the active-tab state
is cleared; otherwise the active tab is untouched. -/
theorem C9_close_tab_removes_and_reactivates (ws : GlobalWorkspace)
    (tabId : String) (now : Int) (h : ∃ t ∈ ws.tabs, t.id = tabId) :
    (closeTab ws tabId now).2 = true ∧
    (closeTab ws tabId now).1.tabs = ws.tabs.eraseP (fun t => t.id == tabId) ∧
    (closeTab ws tabId now).1.activeTabId =
      (if ws.activeTabId = some tabId then
        ((ws.tabs.eraseP (fun t => t.id == tabId)).head?).map Tab.id
       else ws.activeTabId) := by
  obtain ⟨t, htm, hid⟩ := h
  have hsome : (ws.tabs.findIdx? (fun t => t.id == tabId)).isSome = true :=
    findIdx?_isSome_of_mem htm (by simp [hid])
  unfold closeTab
  cases hfi : ws.tabs.findIdx? (fun t => t.id == tabId) with
  | none => rw [hfi] at hsome; simp at hsome
  | some i =>
    have herase : ws.tabs.eraseIdx i = ws.tabs.eraseP (fun t => t.id == tabId) := by
      have := eraseIdx_findIdx_eq_eraseP (fun t => t.id == tabId) ws.tabs
      rw [hfi] at this
      exact this
    refine ⟨rfl, herase, ?_⟩
    by_cases hact : ws.activeTabId = some tabId
    · rw [if_pos hact]
      show (if ws.activeTabId = some tabId then
              match ws.tabs.eraseIdx i with
              | [] => none
              | t :: _ => some t.id
            else ws.activeTabId) = _
      rw [if_pos hact, herase]
      cases (ws.tabs.eraseP fun t => t.id == tabId) with
      | nil => rfl
      | cons hd tl => rfl
    · rw [if_neg hact]
      show (if ws.activeTabId = some tabId then
              match ws.tabs.eraseIdx i with
              | [] => none
              | t :: _ => some t.id
            else ws.activeTabId) = _
      rw [if_neg hact]

/-- A concrete two-tab workspace whose active tab is `ta`. -/
def twoTabWorkspace : GlobalWorkspace :=
  { emptyWorkspace with
    tabs := [{ plainTab with id := "ta", isActive := true },
             { plainTab with id := "tb" }],
    activeTabId := some "ta" }

/-- Witness for C9: closing the active tab `ta` of `twoTabWorkspace`. -/
theorem C9_witness :
    (closeTab twoTabWorkspace "ta" 7).2 = true ∧
    (closeTab twoTabWorkspace "ta" 7).1.tabs =
      twoTabWorkspace.tabs.eraseP (fun t => t.id == "ta") ∧
    (closeTab twoTabWorkspace "ta" 7).1.activeTabId =
      (if twoTabWorkspace.activeTabId = some "ta" then
        ((twoTabWorkspace.tabs.eraseP (fun t => t.id == "ta")).head?).map Tab.id
       else twoTabWorkspace.activeTabId) :=
  C9_close_tab_removes_and_reactivates twoTabWorkspace "ta" 7
    ⟨{ plainTab with id := "ta", isActive := true }, by decide, by decide⟩

theorem disconnectClient_last (st : AServer) (sessionId c : String) (t : ATerm)
    (hs : alGet st.sessions sessionId = some t) (hc : t.clientSids = [c]) :
    alGet (disconnectClient st c).sessions sessionId =
      some { clientSids := [], closed := t.closed,
             closureTask := some { scheduledAt := st.now, gracePeriod := 30 },
             ptyId := t.ptyId } := by
  unfold disconnectClient
  dsimp only
  rw [alGet_alMapValues, hs]
  simp [hc, scheduleTerminalClosure]

/-- C1: after the last attached client of an active session disconnects, a
30 second closure timer is pending; a client reattaching `d < 30` seconds
later finds the timer not yet eligible to fire, and reattachment cancels it
and leaves the session registered, open, with its scrollback buffers and
its PTY process untouched (no new PTY is spawned).  If instead nobody
reattaches, then once `d2 ≥ 30` seconds have passed the closure fires: the
session is removed from the registry and recorded as closed. -/
theorem C1_grace_period_detach_then_reattach_or_close (st : AServer)
    (sessionId c c2 : String) (t : ATerm) (d d2 : Int)
    (hs : alGet st.sessions sessionId = some t)
    (hopen : t.closed = false)
    (hc : t.clientSids = [c])
    (hd0 : 0 ≤ d) (hd : d < 30) (hd2 : 30 ≤ d2) :
    (¬ closureFireEnabled (advanceTime (disconnectClient st c) d) sessionId) ∧
    alGet (createTerminalReuse (advanceTime (disconnectClient st c) d) c2
        sessionId).sessions sessionId =
      some { clientSids := [c2], closed := false, closureTask := none,
             ptyId := t.ptyId } ∧
    (createTerminalReuse (advanceTime (disconnectClient st c) d) c2
        sessionId).sessionBuffers = st.sessionBuffers ∧
    (createTerminalReuse (advanceTime (disconnectClient st c) d) c2
        sessionId).closedSessions = st.closedSessions ∧
    closureFireEnabled (advanceTime (disconnectClient st c) d2) sessionId ∧
    alGet (fireClosure (advanceTime (disconnectClient st c) d2)
        sessionId).sessions sessionId = none ∧
    sessionId ∈ (fireClosure (advanceTime (disconnectClient st c) d2)
        sessionId).closedSessions := by
  have hst1 := disconnectClient_last st sessionId c t hs hc
  rw [hopen] at hst1
  have hadv : ∀ e : Int,
      alGet (advanceTime (disconnectClient st c) e).sessions sessionId =
        some { clientSids := [], closed := false,
               closureTask := some { scheduledAt := st.now, gracePeriod := 30 },
               ptyId := t.ptyId } := fun e => hst1
  refine ⟨?_, ?_, ?_, ?_, ?_, ?_, ?_⟩
  · rintro ⟨t1, tm, h1, h2, h3⟩
    rw [hadv d] at h1
    injection h1 with h1
    subst h1
    injection h2 with h2
    subst h2
    have hnow : (advanceTime (disconnectClient st c) d).now = st.now + d := rfl
    rw [hnow] at h3
    simp only at h3
    omega
  · unfold createTerminalReuse
    rw [hadv d]
    simp [addClientSid, alGet_alSet_self]
  · unfold createTerminalReuse
    rw [hadv d]
    rfl
  · unfold createTerminalReuse
    rw [hadv d]
    rfl
  · exact ⟨_, _, hadv d2, rfl, by show st.now + d2 ≥ st.now + 30; omega⟩
  · unfold fireClosure
    rw [hadv d2]
    simp [clearClosureTask, terminalClose, alGet_alMapValues, alGet_alErase_self]
  · unfold fireClosure
    rw [hadv d2]
    simp [clearClosureTask, terminalClose]

/-- A concrete active terminal session with one attached client. -/
def sampleTerm : ATerm :=
  { clientSids := ["c1"], closed := false, closureTask := none, ptyId := 42 }

/-- A concrete server registry holding `sampleTerm` with scrollback. -/
def sampleAServer : AServer :=
  { sessions := [("s1", sampleTerm)], closedSessions := [],
    sessionBuffers := [("s1", "scrollback")], now := 100 }

/-- Witness for C1: detach of `c1` followed by a reattach of `c2` after 5
seconds, or by closure firing after 35 seconds, at a concrete registry. -/
theorem C1_witness :
    (¬ closureFireEnabled (advanceTime (disconnectClient sampleAServer "c1") 5) "s1") ∧
    alGet (createTerminalReuse (advanceTime (disconnectClient sampleAServer "c1") 5)
        "c2" "s1").sessions "s1" =
      some { clientSids := ["c2"], closed := false, closureTask := none,
             ptyId := 42 } ∧
    (createTerminalReuse (advanceTime (disconnectClient sampleAServer "c1") 5)
        "c2" "s1").sessionBuffers = sampleAServer.sessionBuffers ∧
    (createTerminalReuse (advanceTime (disconnectClient sampleAServer "c1") 5)
        "c2" "s1").closedSessions = sampleAServer.closedSessions ∧
    closureFireEnabled (advanceTime (disconnectClient sampleAServer "c1") 35) "s1" ∧
    alGet (fireClosure (advanceTime (disconnectClient sampleAServer "c1") 35)
        "s1").sessions "s1" = none ∧
    "s1" ∈ (fireClosure (advanceTime (disconnectClient sampleAServer "c1") 35)
        "s1").closedSessions :=
  C1_grace_period_detach_then_reattach_or_close sampleAServer "s1" "c1" "c2"
    sampleTerm 5 35 (by decide) (by decide) (by decide) (by decide) (by decide)
    (by decide)

end AetherTerm
